import Mathlib

/-!
Formal model of the NTT-CSP-Compare pipeline core (src/pipeline and src/main.py),
shallowly embedded in Lean 4. Python JSON-ish runtime values are modelled by
`PyVal`; external inference calls are modelled by oracle parameters giving the
outcome each call would have; the on-disk cache is an association list from
cache key to stored file content plus mtime (`_get_filepath` maps distinct keys
to distinct files, so the store is keyed by cache key directly).
-/

set_option maxRecDepth 10000

/-- A Python runtime value as it appears in this pipeline: JSON scalars,
lists, string-keyed dicts (JSON objects), plus `pyset` standing for a
non-JSON-serializable Python object such as a `set` (relevant to
`CacheManager.set`, which calls `json.dump`). -/
inductive PyVal where
  | none : PyVal
  | bool : Bool → PyVal
  | int : Int → PyVal
  | str : String → PyVal
  | list : List PyVal → PyVal
  | dict : List (String × PyVal) → PyVal
  | pyset : List PyVal → PyVal

/-- Python truthiness (`if not x`): None, False, 0, "", [], {} and empty set
are falsy; everything else is truthy. -/
def truthy : PyVal → Bool
  | PyVal.none => false
  | PyVal.bool b => b
  | PyVal.int n => n != 0
  | PyVal.str s => s ≠ ""
  | PyVal.list l => !l.isEmpty
  | PyVal.dict d => !d.isEmpty
  | PyVal.pyset s => !s.isEmpty

/-- The inline validation check of `CacheManager` (cache.py):
`data is None or (isinstance(data, (list, dict)) and not data)`. -/
def isInvalidData : PyVal → Bool
  | PyVal.none => true
  | PyVal.list l => l.isEmpty
  | PyVal.dict d => d.isEmpty
  | _ => false

mutual
/-- Whether `json.dump` succeeds on this value (a `pyset` anywhere raises
`TypeError`). -/
def jsonSerializable : PyVal → Bool
  | PyVal.none => true
  | PyVal.bool _ => true
  | PyVal.int _ => true
  | PyVal.str _ => true
  | PyVal.list l => jsonSerializableList l
  | PyVal.dict d => jsonSerializablePairs d
  | PyVal.pyset _ => false

def jsonSerializableList : List PyVal → Bool
  | [] => true
  | v :: rest => jsonSerializable v && jsonSerializableList rest

def jsonSerializablePairs : List (String × PyVal) → Bool
  | [] => true
  | (_, v) :: rest => jsonSerializable v && jsonSerializablePairs rest
end

/-- Content of one cache file: either a well-formed JSON document or
unparseable bytes (e.g. the truncated remains of a failed write). -/
inductive FileContent where
  | jsonDoc : PyVal → FileContent
  | corrupt : String → FileContent

/-- One file in the cache directory: its content and its mtime (seconds). -/
structure CacheEntry where
  content : FileContent
  mtime : Nat

/-- The cache directory, keyed by cache key (`_get_filepath` is injective,
mapping key `k` to `data/k.json`). -/
def FS := List (String × CacheEntry)

def fsGet : FS → String → Option CacheEntry
  | [], _ => Option.none
  | (k, e) :: rest, key => if k = key then Option.some e else fsGet rest key

def fsSet : FS → String → CacheEntry → FS
  | [], key, e => [(key, e)]
  | (k, e0) :: rest, key, e => if k = key then (key, e) :: rest else (k, e0) :: fsSet rest key e

/-- Default TTL of `CacheManager` (max_age_days=7, in seconds). -/
def defaultMaxAgeSeconds : Nat := 7 * 24 * 60 * 60

/-- `CacheManager.get` (cache.py lines 18-39): miss when the file is absent,
when `time.time() - getmtime > max_age_seconds`, when the stored JSON fails the
inline validation check, or when the file is unparseable (`json.JSONDecodeError`
is caught and `None` returned). -/
def CacheManager.get (fs : FS) (maxAgeSeconds : Nat) (key : String) (now : Nat) : Option PyVal :=
  match fsGet fs key with
  | Option.none => Option.none
  | Option.some entry =>
    if now - entry.mtime > maxAgeSeconds then Option.none
    else
      match entry.content with
      | FileContent.corrupt _ => Option.none
      | FileContent.jsonDoc data =>
        if isInvalidData data then Option.none else Option.some data

/-- `CacheManager.set` (cache.py lines 41-53): skip entirely when the payload
fails the inline validation check; otherwise `open(filepath, "w")` truncates the
file and `json.dump` writes it. Only `OSError` is caught, so a non-serializable
payload raises `TypeError` to the caller after the truncation, leaving a
corrupt entry on disk; the second component reports that escaped exception. -/
def CacheManager.set (fs : FS) (key : String) (data : PyVal) (now : Nat) : FS × Option String :=
  if isInvalidData data then (fs, Option.none)
  else if jsonSerializable data then
    (fsSet fs key { content := FileContent.jsonDoc data, mtime := now }, Option.none)
  else
    (fsSet fs key { content := FileContent.corrupt "", mtime := now }, Option.some "TypeError")

theorem fsGet_fsSet_same (fs : FS) (key : String) (e : CacheEntry) :
    fsGet (fsSet fs key e) key = Option.some e := by
  induction fs with
  | nil => simp [fsGet, fsSet]
  | cons hd tl ih =>
    obtain ⟨k, e0⟩ := hd
    by_cases h : k = key
    · simp [fsGet, fsSet, h]
    · simp [fsGet, fsSet, h, ih]

theorem fsGet_fsSet_ne (fs : FS) (key key' : String) (e : CacheEntry) (h : key ≠ key') :
    fsGet (fsSet fs key e) key' = fsGet fs key' := by
  induction fs with
  | nil => simp [fsGet, fsSet, h]
  | cons hd tl ih =>
    obtain ⟨k, e0⟩ := hd
    by_cases hk : k = key
    · subst hk; simp [fsGet, fsSet, h]
    · simp [fsGet, fsSet, hk, ih]

/-- A write to one key leaves every other key's entry unchanged. -/
theorem cacheGet_set_ne (fs : FS) (maxAge : Nat) (k k' : String) (d : PyVal)
    (now now' : Nat) (h : k ≠ k') :
    CacheManager.get (CacheManager.set fs k d now).1 maxAge k' now' =
      CacheManager.get fs maxAge k' now' := by
  unfold CacheManager.set
  by_cases h1 : isInvalidData d
  · simp [h1]
  · by_cases h2 : jsonSerializable d <;>
      simp [h1, h2, CacheManager.get, fsGet_fsSet_ne _ _ _ _ h]

/-- C7: for every key and every payload passing the cache's validity predicate
(and lying in the JSON-serializable fragment `json.dump` accepts — the spec's
CacheEntry payload type), `set` followed immediately by `get` returns that
payload: the fresh entry (age 0) is within any TTL window. -/
theorem cache_set_then_get (fs : FS) (key : String) (p : PyVal) (now maxAge : Nat)
    (hvalid : isInvalidData p = false) (hser : jsonSerializable p = true) :
    CacheManager.get (CacheManager.set fs key p now).1 maxAge key now = Option.some p := by
  unfold CacheManager.set CacheManager.get
  simp [hvalid, hser, fsGet_fsSet_same, Nat.sub_self]

theorem cache_set_then_get_witness :
    isInvalidData (PyVal.dict [("a", PyVal.int 1)]) = false ∧
    jsonSerializable (PyVal.dict [("a", PyVal.int 1)]) = true ∧
    CacheManager.get
      (CacheManager.set [] "k" (PyVal.dict [("a", PyVal.int 1)]) 5).1
      defaultMaxAgeSeconds "k" 5 = Option.some (PyVal.dict [("a", PyVal.int 1)]) :=
  ⟨rfl, rfl, cache_set_then_get [] "k" (PyVal.dict [("a", PyVal.int 1)]) 5
      defaultMaxAgeSeconds rfl rfl⟩

/-- C8: `set` performs no write (and raises nothing) when the payload is null,
an empty mapping or an empty sequence; `get` returns a miss — never an
exception (it is a total function of the store) and never an invalid payload —
when no entry exists, when the entry's age exceeds the TTL regardless of the
stored payload, when the stored payload is null/empty, or when the stored
entry is corrupt; the default TTL is 7 days. -/
theorem cache_invalid_and_miss_behaviour (fs : FS) (key : String) (now maxAge : Nat) :
    (∀ p : PyVal, isInvalidData p = true → CacheManager.set fs key p now = (fs, Option.none)) ∧
    (fsGet fs key = Option.none → CacheManager.get fs maxAge key now = Option.none) ∧
    (∀ e : CacheEntry, fsGet fs key = Option.some e → now - e.mtime > maxAge →
      CacheManager.get fs maxAge key now = Option.none) ∧
    (∀ d : PyVal, ∀ m : Nat,
      fsGet fs key = Option.some ⟨FileContent.jsonDoc d, m⟩ → isInvalidData d = true →
      CacheManager.get fs maxAge key now = Option.none) ∧
    (∀ s : String, ∀ m : Nat, fsGet fs key = Option.some ⟨FileContent.corrupt s, m⟩ →
      CacheManager.get fs maxAge key now = Option.none) ∧
    defaultMaxAgeSeconds = 7 * 24 * 60 * 60 := by
  refine ⟨?_, ?_, ?_, ?_, ?_, rfl⟩
  · intro p hp; unfold CacheManager.set; simp [hp]
  · intro h; unfold CacheManager.get; simp [h]
  · intro e he hage; unfold CacheManager.get; simp [he, hage]
  · intro d m hd hinv
    unfold CacheManager.get
    rw [hd]
    by_cases hage : now - m > maxAge <;> simp [hage, hinv]
  · intro s m hs
    unfold CacheManager.get
    rw [hs]
    by_cases hage : now - m > maxAge <;> simp [hage]

theorem cache_invalid_and_miss_behaviour_witness :
    CacheManager.set [] "k" PyVal.none 0 = ([], Option.none) ∧
    CacheManager.get [] defaultMaxAgeSeconds "k" 0 = Option.none ∧
    CacheManager.get [("k", ⟨FileContent.jsonDoc (PyVal.int 3), 0⟩)]
      defaultMaxAgeSeconds "k" (defaultMaxAgeSeconds + 1) = Option.none ∧
    CacheManager.get [("k", ⟨FileContent.jsonDoc (PyVal.list []), 0⟩)]
      defaultMaxAgeSeconds "k" 0 = Option.none ∧
    CacheManager.get [("k", ⟨FileContent.corrupt "not valid json", 0⟩)]
      defaultMaxAgeSeconds "k" 0 = Option.none := by
  refine ⟨?_, ?_, ?_, ?_, ?_⟩
  · exact (cache_invalid_and_miss_behaviour [] "k" 0 defaultMaxAgeSeconds).1 PyVal.none rfl
  · exact (cache_invalid_and_miss_behaviour [] "k" 0 defaultMaxAgeSeconds).2.1 rfl
  · exact (cache_invalid_and_miss_behaviour _ "k" (defaultMaxAgeSeconds + 1)
      defaultMaxAgeSeconds).2.2.1 _ rfl (by decide)
  · exact (cache_invalid_and_miss_behaviour _ "k" 0 defaultMaxAgeSeconds).2.2.2.1
      (PyVal.list []) 0 rfl rfl
  · exact (cache_invalid_and_miss_behaviour _ "k" 0 defaultMaxAgeSeconds).2.2.2.2.1
      "not valid json" 0 rfl

/-- C10: `set` is not total over payloads passing the validity predicate:
a non-null, non-empty payload that is not JSON-serializable (here a Python set
containing one element) passes the validity check, so `open(filepath, "w")`
truncates the destination file before `json.dump` raises `TypeError`, which
escapes (only `OSError` is caught) and leaves a corrupt entry on disk that a
later `get` treats as a miss. -/
theorem cache_set_typeerror_corrupts (fs : FS) (key : String) (now : Nat) :
    ∃ p : PyVal,
      isInvalidData p = false ∧
      jsonSerializable p = false ∧
      (CacheManager.set fs key p now).2 = Option.some "TypeError" ∧
      fsGet (CacheManager.set fs key p now).1 key =
        Option.some ⟨FileContent.corrupt "", now⟩ ∧
      CacheManager.get (CacheManager.set fs key p now).1 defaultMaxAgeSeconds key now =
        Option.none := by
  refine ⟨PyVal.pyset [PyVal.int 1], rfl, rfl, ?_, ?_, ?_⟩
  · unfold CacheManager.set
    simp [isInvalidData, jsonSerializable]
  · unfold CacheManager.set
    simp [isInvalidData, jsonSerializable, fsGet_fsSet_same]
  · unfold CacheManager.set CacheManager.get
    simp [isInvalidData, jsonSerializable, fsGet_fsSet_same, Nat.sub_self]

/-- Outcome of one call to the underlying
`self.client.models.generate_content` plus response decoding, as seen by the
retry loop of `GeminiClient.generate_content` (gemini.py lines 35-62):
either one of the three caught exception kinds (`errors.APIError`,
`ValueError`, `json.JSONDecodeError`) or a successfully decoded payload
(`response.parsed` or `json.loads(response.text)`). -/
inductive AttemptOutcome where
  | apiError : AttemptOutcome
  | valueError : AttemptOutcome
  | jsonDecodeError : AttemptOutcome
  | success : PyVal → AttemptOutcome

def AttemptOutcome.isFailure : AttemptOutcome → Bool
  | AttemptOutcome.success _ => false
  | _ => true

/-- Backoff base: the `0.1` in `await asyncio.sleep((2 ** attempt) * 0.1)`. -/
def base_delay : ℚ := 1 / 10

/-- The `for attempt in range(3)` retry loop of `generate_content`, driven by
the outcome each attempt would have. Returns the result (the null sentinel on
exhaustion — the loop never raises the three caught exception kinds), the
number of attempts actually issued, and the sleeps performed between
attempts. `fuel` counts the loop iterations remaining (3 at entry). -/
def runGenerate (f : Nat → AttemptOutcome) (fuel attempt : Nat) :
    Option PyVal × Nat × List ℚ :=
  match fuel with
  | 0 => (Option.none, 0, [])
  | fuel' + 1 =>
    match f attempt with
    | AttemptOutcome.success p => (Option.some p, 1, [])
    | _ =>
      if attempt < 2 then
        let r := runGenerate f fuel' (attempt + 1)
        (r.1, r.2.1 + 1, (2 ^ attempt : ℚ) * base_delay :: r.2.2)
      else (Option.none, 1, [])

/-- `GeminiClient.generate_content` (gemini.py lines 26-62), abstracted over
the per-attempt outcome of the external call: up to 3 attempts, exponential
backoff between them, null sentinel after the 3rd failure. -/
def generate_content (f : Nat → AttemptOutcome) : Option PyVal × Nat × List ℚ :=
  runGenerate f 3 0

/-- C1: three consecutive modeled failures make `generate_content` return the
null sentinel after exactly 3 attempts (never raising the caught exception
kinds to the caller — the modeled loop is total and returns); one failure
followed by a success returns the success payload after exactly 2 attempts;
the backoff sleep before retry `attempt + 1` is `base_delay * 2 ^ attempt`
for attempt indices 0 and 1. -/
theorem generate_content_retry_spec (f : Nat → AttemptOutcome) :
    ((f 0).isFailure = true → (f 1).isFailure = true → (f 2).isFailure = true →
      generate_content f =
        (Option.none, 3, [base_delay * 2 ^ 0, base_delay * 2 ^ 1])) ∧
    (∀ p : PyVal, (f 0).isFailure = true → f 1 = AttemptOutcome.success p →
      generate_content f = (Option.some p, 2, [base_delay * 2 ^ 0])) := by
  constructor
  · intro h0 h1 h2
    unfold generate_content runGenerate
    match hf0 : f 0 with
    | AttemptOutcome.success p => rw [hf0] at h0; simp [AttemptOutcome.isFailure] at h0
    | AttemptOutcome.apiError | AttemptOutcome.valueError | AttemptOutcome.jsonDecodeError =>
      unfold runGenerate
      match hf1 : f 1 with
      | AttemptOutcome.success p => rw [hf1] at h1; simp [AttemptOutcome.isFailure] at h1
      | AttemptOutcome.apiError | AttemptOutcome.valueError | AttemptOutcome.jsonDecodeError =>
        unfold runGenerate
        match hf2 : f 2 with
        | AttemptOutcome.success p => rw [hf2] at h2; simp [AttemptOutcome.isFailure] at h2
        | AttemptOutcome.apiError | AttemptOutcome.valueError
        | AttemptOutcome.jsonDecodeError =>
          norm_num [base_delay]
  · intro p h0 h1
    unfold generate_content runGenerate
    match hf0 : f 0 with
    | AttemptOutcome.success q => rw [hf0] at h0; simp [AttemptOutcome.isFailure] at h0
    | AttemptOutcome.apiError | AttemptOutcome.valueError | AttemptOutcome.jsonDecodeError =>
      unfold runGenerate
      rw [h1]
      norm_num [base_delay]

theorem generate_content_retry_spec_witness :
    generate_content (fun _ => AttemptOutcome.apiError) =
      (Option.none, 3, [base_delay * 2 ^ 0, base_delay * 2 ^ 1]) ∧
    generate_content
        (fun i => if i = 0 then AttemptOutcome.valueError
                  else AttemptOutcome.success (PyVal.str "ok")) =
      (Option.some (PyVal.str "ok"), 2, [base_delay * 2 ^ 0]) :=
  ⟨(generate_content_retry_spec (fun _ => AttemptOutcome.apiError)).1 rfl rfl rfl,
   (generate_content_retry_spec _).2 (PyVal.str "ok") rfl rfl⟩

/-- Dict lookup (`d[k]` / `d.get(k)` on a `PyVal.dict`). -/
def dictLookup : List (String × PyVal) → String → Option PyVal
  | [], _ => Option.none
  | (k, v) :: rest, key => if k = key then Option.some v else dictLookup rest key

/-- Python `value.get(key, default)`; the modelled callers only apply it to
dicts (on anything else `.get` would raise `AttributeError` in the source). -/
def pyGet (v : PyVal) (key : String) (dflt : PyVal) : PyVal :=
  match v with
  | PyVal.dict kvs => (dictLookup kvs key).getD dflt
  | _ => dflt

/-- Coerce a `PyVal` expected to be a string (f-string interpolation sites
always receive strings in this pipeline). -/
def pyStrD (v : PyVal) (dflt : String) : String :=
  match v with
  | PyVal.str s => s
  | _ => dflt

/-- Coerce a `PyVal` expected to be a list (iteration sites). -/
def pyList : PyVal → List PyVal
  | PyVal.list l => l
  | _ => []

/-- Concatenation of per-chunk result lists (the flattening
`[item for sublist in results for item in sublist]` in `map_services`). -/
def flattenL : List (List PyVal) → List PyVal
  | [] => []
  | l :: ls => l ++ flattenL ls

/-- Outcome of the single `generate_content` call a chunk issues in
`_map_batch_services`: the null sentinel, an exception caught by the
`except Exception` handler, or a decoded response dict in which the
expected "items" list field may be present or missing. -/
inductive BatchCallResult where
  | failure : BatchCallResult
  | exn : BatchCallResult
  | ok : Option (List PyVal) → BatchCallResult

/-- The `get_fallback` closure of `_map_batch_services` (discovery.py
lines 88-95): one unmatched ServiceMapItem per input entry, with
`csp_b_service_name = None` and the entry's own name/url preserved
(dict-`get` defaults when absent). -/
def get_fallback (s : PyVal) : PyVal :=
  PyVal.dict
    [ ("domain", pyGet s "domain" (PyVal.str "Unknown"))
    , ("csp_a_service_name", pyGet s "service_name" (PyVal.str "Unknown Service"))
    , ("csp_a_url", pyGet s "service_url" (PyVal.str ""))
    , ("csp_b_service_name", PyVal.none)
    , ("csp_b_url", PyVal.none) ]

/-- `ServiceMapper._map_batch_services` (discovery.py lines 84-129) for one
chunk, abstracted over the inference call's outcome. `promptOk` is the
`all([system_instruction, user_template])` check (when it fails, the chunk
falls back without issuing a call). Returns the chunk's result list and the
number of inference calls issued. The `services_b` candidate list only feeds
the prompt text, which is opaque here. -/
def map_batch_services (promptOk : Bool) (oracle : BatchCallResult)
    (chunk : List PyVal) : List PyVal × Nat :=
  if !promptOk then (chunk.map get_fallback, 0)
  else
    match oracle with
    | BatchCallResult.failure => (chunk.map get_fallback, 1)
    | BatchCallResult.exn => (chunk.map get_fallback, 1)
    | BatchCallResult.ok Option.none => (chunk.map get_fallback, 1)
    | BatchCallResult.ok (Option.some items) => (items, 1)

/-- `ServiceMapper.map_services` (discovery.py lines 131-184), non-test path:
slice `services_a` into consecutive chunks of 20 (`range(0, len, batch_size)`),
run one `_map_batch_services` task per chunk (`asyncio.gather` preserves task
order), and flatten the per-chunk result lists in chunk order. `oracles i` is
the outcome of chunk `i`'s inference call. Returns the flattened items and the
total number of inference calls. -/
def map_services (promptOk : Bool) (oracles : Nat → BatchCallResult)
    (services_a : List PyVal) : List PyVal × Nat :=
  let n := services_a.length
  let results := (List.range ((n + 19) / 20)).map
    (fun i => map_batch_services promptOk (oracles i) ((services_a.drop (i * 20)).take 20))
  (flattenL (results.map Prod.fst), (results.map Prod.snd).sum)

theorem flattenL_length (L : List (List PyVal)) :
    (flattenL L).length = (L.map List.length).sum := by
  induction L with
  | nil => simp [flattenL]
  | cons l ls ih => simp [flattenL, ih]

/-- The size-20 slices taken at offsets 0, 20, 40, … reassemble the input. -/
theorem flattenL_chunks (m : Nat) :
    ∀ l : List PyVal, (l.length + 19) / 20 = m →
      flattenL ((List.range m).map (fun i => (l.drop (i * 20)).take 20)) = l := by
  induction m with
  | zero =>
    intro l hl
    have : l.length = 0 := by omega
    have hnil : l = [] := List.eq_nil_of_length_eq_zero this
    simp [hnil, flattenL]
  | succ m ih =>
    intro l hl
    rw [List.range_succ_eq_map]
    simp only [List.map_cons, List.map_map]
    rw [flattenL]
    have hdrop : ∀ i : Nat, l.drop ((i + 1) * 20) = (l.drop 20).drop (i * 20) := by
      intro i
      rw [List.drop_drop]
      congr 1
      ring
    have hrest :
        ((List.range m).map ((fun i => (l.drop (i * 20)).take 20) ∘ Nat.succ)) =
        ((List.range m).map (fun i => ((l.drop 20).drop (i * 20)).take 20)) := by
      apply List.map_congr_left
      intro i _
      simp only [Function.comp]
      rw [show Nat.succ i = i + 1 from rfl, hdrop i]
    rw [hrest]
    have hlen : ((l.drop 20).length + 19) / 20 = m := by
      rw [List.length_drop]
      omega
    rw [ih (l.drop 20) hlen]
    exact List.take_append_drop 20 l

theorem sum_map_one (l : List Nat) : (l.map (fun _ => 1)).sum = l.length := by
  induction l with
  | nil => simp
  | cons x xs ih => simp [ih]; omega

/-- C2: on `N` input entries with chunk size 20, `map_services` issues exactly
`⌈N/20⌉` inference calls (one per chunk — given the loaded prompt config) and
returns exactly `N` results, as the concatenation of the per-chunk result
lists in the original chunk order (chunk-level `asyncio.gather` cannot reorder
items within or across chunks); the hypothesis is the spec's response
contract that a successful chunk response carries exactly one match result
per chunk input. -/
theorem map_services_chunking (oracles : Nat → BatchCallResult) (sa : List PyVal)
    (hlen : ∀ i : Nat, ∀ items : List PyVal,
      oracles i = BatchCallResult.ok (Option.some items) →
      items.length = ((sa.drop (i * 20)).take 20).length) :
    (map_services true oracles sa).2 = (sa.length + 19) / 20 ∧
    (map_services true oracles sa).1.length = sa.length ∧
    (map_services true oracles sa).1 =
      flattenL ((List.range ((sa.length + 19) / 20)).map
        (fun i => (map_batch_services true (oracles i) ((sa.drop (i * 20)).take 20)).1)) := by
  refine ⟨?_, ?_, ?_⟩
  · unfold map_services
    simp only [List.map_map]
    have hone : ((List.range ((sa.length + 19) / 20)).map
        (Prod.snd ∘ fun i =>
          map_batch_services true (oracles i) ((sa.drop (i * 20)).take 20))) =
        ((List.range ((sa.length + 19) / 20)).map (fun _ => 1)) := by
      apply List.map_congr_left
      intro i _
      simp only [Function.comp]
      unfold map_batch_services
      match h : oracles i with
      | BatchCallResult.failure => simp
      | BatchCallResult.exn => simp
      | BatchCallResult.ok Option.none => simp
      | BatchCallResult.ok (Option.some items) => simp
    rw [hone, sum_map_one]
    simp
  · unfold map_services
    simp only [List.map_map]
    rw [flattenL_length]
    simp only [List.map_map]
    have hlens : ((List.range ((sa.length + 19) / 20)).map
        (List.length ∘ Prod.fst ∘ fun i =>
          map_batch_services true (oracles i) ((sa.drop (i * 20)).take 20))) =
        ((List.range ((sa.length + 19) / 20)).map
          (fun i => ((sa.drop (i * 20)).take 20).length)) := by
      apply List.map_congr_left
      intro i _
      simp only [Function.comp]
      unfold map_batch_services
      match h : oracles i with
      | BatchCallResult.failure => simp
      | BatchCallResult.exn => simp
      | BatchCallResult.ok Option.none => simp
      | BatchCallResult.ok (Option.some items) =>
        simp only [Bool.not_true, Bool.false_eq_true, if_false]
        exact hlen i items h
    rw [hlens]
    have h2 : (flattenL ((List.range ((sa.length + 19) / 20)).map
        (fun i => (sa.drop (i * 20)).take 20))).length = sa.length := by
      rw [flattenL_chunks ((sa.length + 19) / 20) sa rfl]
    rw [flattenL_length, List.map_map] at h2
    exact h2
  · unfold map_services
    simp only [List.map_map]
    rfl

theorem map_services_chunking_witness :
    (map_services true (fun _ => BatchCallResult.failure)
      (List.replicate 25 (PyVal.dict [("service_name", PyVal.str "svc")]))).2 = 2 ∧
    (map_services true (fun _ => BatchCallResult.failure)
      (List.replicate 25 (PyVal.dict [("service_name", PyVal.str "svc")]))).1.length = 25 := by
  have h := map_services_chunking (fun _ => BatchCallResult.failure)
    (List.replicate 25 (PyVal.dict [("service_name", PyVal.str "svc")]))
    (fun i items h => by cases h)
  exact ⟨by rw [h.1]; rfl, by rw [h.2.1]; rfl⟩

/-- C3: whenever a chunk's inference call fails — null-sentinel Failure, a
raised exception, or a response missing the expected "items" list field —
`_map_batch_services` produces exactly one fallback item per input entry, in
input order (no entry dropped), each with `csp_b_service_name = None`,
`csp_b_url = None`, and the entry's original service name and url carried
over whenever they are present. -/
theorem map_batch_fallback_on_failure (promptOk : Bool) (oracle : BatchCallResult)
    (chunk : List PyVal)
    (hfail : oracle = BatchCallResult.failure ∨ oracle = BatchCallResult.exn ∨
      oracle = BatchCallResult.ok Option.none) :
    (map_batch_services promptOk oracle chunk).1 = chunk.map get_fallback ∧
    (map_batch_services promptOk oracle chunk).1.length = chunk.length ∧
    (∀ s : PyVal, ∀ kvs : List (String × PyVal), s = PyVal.dict kvs →
      dictLookup kvs "csp_b_service_name" = Option.none →
      pyGet (get_fallback s) "csp_b_service_name" (PyVal.str "?") = PyVal.none ∧
      pyGet (get_fallback s) "csp_b_url" (PyVal.str "?") = PyVal.none ∧
      pyGet (get_fallback s) "csp_a_service_name" (PyVal.str "?") =
        pyGet s "service_name" (PyVal.str "Unknown Service") ∧
      pyGet (get_fallback s) "csp_a_url" (PyVal.str "?") =
        pyGet s "service_url" (PyVal.str "")) := by
  refine ⟨?_, ?_, ?_⟩
  · rcases hfail with h | h | h <;> subst h <;>
      unfold map_batch_services <;> cases promptOk <;> simp
  · rcases hfail with h | h | h <;> subst h <;>
      unfold map_batch_services <;> cases promptOk <;> simp
  · intro s kvs hs _
    subst hs
    refine ⟨?_, ?_, ?_, ?_⟩ <;> simp [get_fallback, pyGet, dictLookup]

theorem map_batch_fallback_on_failure_witness :
    (map_batch_services true BatchCallResult.failure
        [PyVal.dict [("service_name", PyVal.str "EC2"),
                     ("service_url", PyVal.str "https://aws.amazon.com/ec2/")]]).1 =
      [get_fallback (PyVal.dict [("service_name", PyVal.str "EC2"),
                     ("service_url", PyVal.str "https://aws.amazon.com/ec2/")])] ∧
    pyGet (get_fallback (PyVal.dict [("service_name", PyVal.str "EC2"),
        ("service_url", PyVal.str "https://aws.amazon.com/ec2/")]))
      "csp_b_service_name" (PyVal.str "?") = PyVal.none ∧
    pyGet (get_fallback (PyVal.dict [("service_name", PyVal.str "EC2"),
        ("service_url", PyVal.str "https://aws.amazon.com/ec2/")]))
      "csp_a_service_name" (PyVal.str "?") = PyVal.str "EC2" := by
  have h := map_batch_fallback_on_failure true BatchCallResult.failure
    [PyVal.dict [("service_name", PyVal.str "EC2"),
                 ("service_url", PyVal.str "https://aws.amazon.com/ec2/")]]
    (Or.inl rfl)
  have h3 := h.2.2 (PyVal.dict [("service_name", PyVal.str "EC2"),
      ("service_url", PyVal.str "https://aws.amazon.com/ec2/")])
    [("service_name", PyVal.str "EC2"),
     ("service_url", PyVal.str "https://aws.amazon.com/ec2/")] rfl rfl
  refine ⟨by rw [h.1]; rfl, h3.1, ?_⟩
  rw [h3.2.2.1]; rfl

/-- Dict item assignment (`d[k] = v`). -/
def dictSet : List (String × PyVal) → String → PyVal → List (String × PyVal)
  | [], key, v => [(key, v)]
  | (k, w) :: rest, key, v =>
    if k = key then (key, v) :: rest else (k, w) :: dictSet rest key v

/-- `format_service_name` (main.py lines 19-21):
`f"{csp}_{service_name}".lower().replace(" ", "_")`. `str.lower` is modelled
per character (the pipeline's names are ASCII) and the single-space pattern of
`replace` acts per character. -/
def format_service_name (csp service_name : String) : String :=
  String.mk (((csp ++ "_" ++ service_name).data.map Char.toLower).map
    (fun c => if c = ' ' then '_' else c))

/-- The `service_pair_id` formed in `process_service_item` (main.py
lines 32-34). -/
def servicePairId (cspa cspb : String) (item : PyVal) : String :=
  format_service_name cspa (pyStrD (pyGet item "csp_a_service_name" PyVal.none) "") ++
    "_vs_" ++
    format_service_name cspb (pyStrD (pyGet item "csp_b_service_name" PyVal.none) "")

/-- The outcome each per-pair external stage would have if invoked:
`TechnicalAnalyst.perform_analysis`, `PricingAnalyst.perform_analysis` and
`Synthesizer.synthesize` each return a dict or `None` (each catches its own
exceptions). -/
structure StageOracles where
  tech : Option (List (String × PyVal))
  price : Option (List (String × PyVal))
  synth : Option (List (String × PyVal))

/-- Whether a stage outcome passes the `if tech_data:` truthiness test. -/
def oracleTruthy : Option (List (String × PyVal)) → Bool
  | Option.some d => !d.isEmpty
  | Option.none => false

/-- One cache-backed stage of `process_service_item` (main.py lines 38-72):
look up the key; on a falsy cached value invoke the stage (one inference
call); a truthy stage result gets `service_pair_id` stamped in (when `tag`
says so — technical and pricing do, synthesis does not) and is written back;
a falsy one logs the warning and yields no data. Returns
(data, cache, inference calls, warnings). The `TypeError` channel of
`CacheManager.set` is dropped here: stage payloads are `json.loads` products,
hence serializable. -/
def stageStep (fs : FS) (maxAge : Nat) (key : String)
    (oracle : Option (List (String × PyVal))) (tag : Option String)
    (warnMsg : String) (now : Nat) : Option PyVal × FS × Nat × List String :=
  let cached := (CacheManager.get fs maxAge key now).getD PyVal.none
  if truthy cached then (Option.some cached, fs, 0, [])
  else
    match oracle with
    | Option.some d =>
      if d.isEmpty then (Option.none, fs, 1, [warnMsg])
      else
        let d2 := match tag with
          | Option.some pid => PyVal.dict (dictSet d "service_pair_id" (PyVal.str pid))
          | Option.none => PyVal.dict d
        (Option.some d2, (CacheManager.set fs key d2 now).1, 1, [])
    | Option.none => (Option.none, fs, 1, [warnMsg])

/-- `process_service_item` (main.py lines 23-77), abstracted over the stage
outcomes: skip unmatched items (`if not service_b`), then run the technical,
pricing and synthesis stages in order, each cache-first, aborting the pair
with `None` on the first failed stage. Returns the pair's combined result
(`{"map": item, "result": result_json}` as the pair (item, result)), the
cache, the number of stage inference calls, and the warnings recorded. The
function is total: no exception reaches the caller. -/
def process_service_item (o : StageOracles) (item : PyVal) (cspa cspb : String)
    (fs : FS) (now maxAge : Nat) : Option (PyVal × PyVal) × FS × Nat × List String :=
  if truthy (pyGet item "csp_b_service_name" PyVal.none) = false then (Option.none, fs, 0, [])
  else
    match stageStep fs maxAge ("technical_" ++ servicePairId cspa cspb item) o.tech
        (Option.some (servicePairId cspa cspb item))
        ("Technical analysis failed for " ++ servicePairId cspa cspb item) now with
    | (Option.none, fs1, c1, w1) => (Option.none, fs1, c1, w1)
    | (Option.some _, fs1, c1, w1) =>
      match stageStep fs1 maxAge ("pricing_" ++ servicePairId cspa cspb item) o.price
          (Option.some (servicePairId cspa cspb item))
          ("Pricing analysis failed for " ++ servicePairId cspa cspb item) now with
      | (Option.none, fs2, c2, w2) => (Option.none, fs2, c1 + c2, w1 ++ w2)
      | (Option.some _, fs2, c2, w2) =>
        match stageStep fs2 maxAge ("result_" ++ servicePairId cspa cspb item) o.synth
            Option.none
            ("Synthesis failed for " ++ servicePairId cspa cspb item) now with
        | (Option.none, fs3, c3, w3) => (Option.none, fs3, c1 + c2 + c3, w1 ++ w2 ++ w3)
        | (Option.some resultJson, fs3, c3, w3) =>
          (Option.some (item, resultJson), fs3, c1 + c2 + c3, w1 ++ w2 ++ w3)

/-- `final_results = [res for res in processed_results if res is not None]`
(main.py line 172). -/
def finalResultsOf (processed : List (Option (PyVal × PyVal))) : List (PyVal × PyVal) :=
  processed.filterMap id

theorem append_ne_of_length_ne (s t p : String) (h : s.length ≠ t.length) :
    s ++ p ≠ t ++ p := by
  intro he
  apply h
  have := congrArg String.length he
  rw [String.length_append, String.length_append] at this
  omega

theorem dictSet_ne_nil (d : List (String × PyVal)) (k : String) (v : PyVal) :
    dictSet d k v ≠ [] := by
  cases d with
  | nil => simp [dictSet]
  | cons hd tl =>
    obtain ⟨k0, w⟩ := hd
    unfold dictSet
    by_cases h : k0 = k <;> simp [h]

theorem stageStep_hot (fs : FS) (maxAge : Nat) (key : String)
    (oracle : Option (List (String × PyVal))) (tag : Option String)
    (warnMsg : String) (now : Nat)
    (h : truthy ((CacheManager.get fs maxAge key now).getD PyVal.none) = true) :
    stageStep fs maxAge key oracle tag warnMsg now =
      (Option.some ((CacheManager.get fs maxAge key now).getD PyVal.none), fs, 0, []) := by
  unfold stageStep
  simp [h]

theorem stageStep_cold_fail (fs : FS) (maxAge : Nat) (key : String)
    (oracle : Option (List (String × PyVal))) (tag : Option String)
    (warnMsg : String) (now : Nat)
    (h1 : truthy ((CacheManager.get fs maxAge key now).getD PyVal.none) = false)
    (h2 : oracleTruthy oracle = false) :
    stageStep fs maxAge key oracle tag warnMsg now = (Option.none, fs, 1, [warnMsg]) := by
  unfold stageStep
  cases oracle with
  | none => simp [h1]
  | some d =>
    have hd : d.isEmpty = true := by simpa [oracleTruthy] using h2
    simp [h1, hd]

theorem stageStep_cold_success (fs : FS) (maxAge : Nat) (key : String)
    (oracle : Option (List (String × PyVal))) (tag : Option String)
    (warnMsg : String) (now : Nat)
    (h1 : truthy ((CacheManager.get fs maxAge key now).getD PyVal.none) = false)
    (h2 : oracleTruthy oracle = true) :
    ∃ d2 : PyVal, stageStep fs maxAge key oracle tag warnMsg now =
      (Option.some d2, (CacheManager.set fs key d2 now).1, 1, []) := by
  cases oracle with
  | none => simp [oracleTruthy] at h2
  | some d =>
    have hd : d.isEmpty = false := by simpa [oracleTruthy] using h2
    cases tag with
    | none =>
      refine ⟨PyVal.dict d, ?_⟩
      unfold stageStep
      simp [h1, hd]
    | some pid =>
      refine ⟨PyVal.dict (dictSet d "service_pair_id" (PyVal.str pid)), ?_⟩
      unfold stageStep
      simp [h1, hd]

theorem finalResultsOf_drop_none (rs1 rs2 : List (Option (PyVal × PyVal))) :
    finalResultsOf (rs1 ++ Option.none :: rs2) = finalResultsOf (rs1 ++ rs2) := by
  unfold finalResultsOf
  simp

/-- C6: for a matched pair whose three stage cache keys are all cold, if the
technical, pricing or synthesis stage returns no usable result, then
`process_service_item` returns `None` (so `final_results` filters the pair
out, leaving every other entry untouched — third conjunct, modelling main.py
line 172), a warning naming the pair's `service_pair_id` is recorded, and no
exception propagates (the modelled function is total and the run's remaining
pairs are processed independently of this return value). -/
theorem process_item_stage_failure (o : StageOracles) (item : PyVal)
    (cspa cspb : String) (fs : FS) (now maxAge : Nat)
    (hmatched : truthy (pyGet item "csp_b_service_name" PyVal.none) = true)
    (hcold_t : truthy ((CacheManager.get fs maxAge
      ("technical_" ++ servicePairId cspa cspb item) now).getD PyVal.none) = false)
    (hcold_p : truthy ((CacheManager.get fs maxAge
      ("pricing_" ++ servicePairId cspa cspb item) now).getD PyVal.none) = false)
    (hcold_r : truthy ((CacheManager.get fs maxAge
      ("result_" ++ servicePairId cspa cspb item) now).getD PyVal.none) = false)
    (hfail : (oracleTruthy o.tech && oracleTruthy o.price && oracleTruthy o.synth) = false) :
    (process_service_item o item cspa cspb fs now maxAge).1 = Option.none ∧
    (∃ pre : String,
      (pre ++ servicePairId cspa cspb item) ∈
        (process_service_item o item cspa cspb fs now maxAge).2.2.2) ∧
    (∀ rs1 rs2 : List (Option (PyVal × PyVal)),
      finalResultsOf (rs1 ++ Option.none :: rs2) = finalResultsOf (rs1 ++ rs2)) := by
  have hne_tp : ("technical_" ++ servicePairId cspa cspb item) ≠
      ("pricing_" ++ servicePairId cspa cspb item) :=
    append_ne_of_length_ne _ _ _ (by decide)
  have hne_tr : ("technical_" ++ servicePairId cspa cspb item) ≠
      ("result_" ++ servicePairId cspa cspb item) :=
    append_ne_of_length_ne _ _ _ (by decide)
  have hne_pr : ("pricing_" ++ servicePairId cspa cspb item) ≠
      ("result_" ++ servicePairId cspa cspb item) :=
    append_ne_of_length_ne _ _ _ (by decide)
  suffices hmain : (process_service_item o item cspa cspb fs now maxAge).1 = Option.none ∧
      (∃ pre : String, (pre ++ servicePairId cspa cspb item) ∈
        (process_service_item o item cspa cspb fs now maxAge).2.2.2) by
    exact ⟨hmain.1, hmain.2, finalResultsOf_drop_none⟩
  by_cases ht : oracleTruthy o.tech = true
  case neg =>
    have ht' : oracleTruthy o.tech = false := by
      cases h : oracleTruthy o.tech
      · rfl
      · exact absurd h ht
    have hres : process_service_item o item cspa cspb fs now maxAge =
        (Option.none, fs, 1,
          ["Technical analysis failed for " ++ servicePairId cspa cspb item]) := by
      unfold process_service_item
      rw [if_neg (by simp [hmatched])]
      rw [stageStep_cold_fail fs maxAge _ o.tech _ _ now hcold_t ht']
    rw [hres]
    exact ⟨rfl, "Technical analysis failed for ", by simp⟩
  case pos =>
    obtain ⟨d2, hstep_t⟩ := stageStep_cold_success fs maxAge
      ("technical_" ++ servicePairId cspa cspb item) o.tech
      (Option.some (servicePairId cspa cspb item))
      ("Technical analysis failed for " ++ servicePairId cspa cspb item) now hcold_t ht
    have hcold_p1 : truthy ((CacheManager.get
        (CacheManager.set fs ("technical_" ++ servicePairId cspa cspb item) d2 now).1
        maxAge ("pricing_" ++ servicePairId cspa cspb item) now).getD PyVal.none) = false := by
      rw [cacheGet_set_ne fs maxAge _ _ d2 now now hne_tp]
      exact hcold_p
    by_cases hp : oracleTruthy o.price = true
    case neg =>
      have hp' : oracleTruthy o.price = false := by
        cases h : oracleTruthy o.price
        · rfl
        · exact absurd h hp
      have hstep_p_fail := stageStep_cold_fail
        (CacheManager.set fs ("technical_" ++ servicePairId cspa cspb item) d2 now).1
        maxAge ("pricing_" ++ servicePairId cspa cspb item) o.price
        (Option.some (servicePairId cspa cspb item))
        ("Pricing analysis failed for " ++ servicePairId cspa cspb item) now hcold_p1 hp'
      have hres : process_service_item o item cspa cspb fs now maxAge =
          (Option.none,
            (CacheManager.set fs ("technical_" ++ servicePairId cspa cspb item) d2 now).1,
            2,
            ["Pricing analysis failed for " ++ servicePairId cspa cspb item]) := by
        unfold process_service_item
        simp [hmatched, hstep_t, hstep_p_fail]
      rw [hres]
      exact ⟨rfl, "Pricing analysis failed for ", by simp⟩
    case pos =>
      have hs' : oracleTruthy o.synth = false := by
        rw [ht, hp] at hfail
        simpa using hfail
      obtain ⟨p2, hstep_p⟩ := stageStep_cold_success _ maxAge
        ("pricing_" ++ servicePairId cspa cspb item) o.price
        (Option.some (servicePairId cspa cspb item))
        ("Pricing analysis failed for " ++ servicePairId cspa cspb item) now hcold_p1 hp
      have hcold_r2 : truthy ((CacheManager.get
          (CacheManager.set
            (CacheManager.set fs ("technical_" ++ servicePairId cspa cspb item) d2 now).1
            ("pricing_" ++ servicePairId cspa cspb item) p2 now).1
          maxAge ("result_" ++ servicePairId cspa cspb item) now).getD PyVal.none) = false := by
        rw [cacheGet_set_ne _ maxAge _ _ p2 now now hne_pr]
        rw [cacheGet_set_ne fs maxAge _ _ d2 now now hne_tr]
        exact hcold_r
      have hstep_r_fail := stageStep_cold_fail
        (CacheManager.set
          (CacheManager.set fs ("technical_" ++ servicePairId cspa cspb item) d2 now).1
          ("pricing_" ++ servicePairId cspa cspb item) p2 now).1
        maxAge ("result_" ++ servicePairId cspa cspb item) o.synth Option.none
        ("Synthesis failed for " ++ servicePairId cspa cspb item) now hcold_r2 hs'
      have hres : process_service_item o item cspa cspb fs now maxAge =
          (Option.none,
            (CacheManager.set
              (CacheManager.set fs ("technical_" ++ servicePairId cspa cspb item) d2 now).1
              ("pricing_" ++ servicePairId cspa cspb item) p2 now).1,
            3,
            ["Synthesis failed for " ++ servicePairId cspa cspb item]) := by
        unfold process_service_item
        simp [hmatched, hstep_t, hstep_p, hstep_r_fail]
      rw [hres]
      exact ⟨rfl, "Synthesis failed for ", by simp⟩

theorem process_item_stage_failure_witness :
    truthy (pyGet (PyVal.dict [("csp_a_service_name", PyVal.str "s"),
      ("csp_b_service_name", PyVal.str "t")]) "csp_b_service_name" PyVal.none) = true ∧
    (process_service_item ⟨Option.some [("x", PyVal.int 1)], Option.none, Option.none⟩
      (PyVal.dict [("csp_a_service_name", PyVal.str "s"),
        ("csp_b_service_name", PyVal.str "t")])
      "a" "b" [] 0 defaultMaxAgeSeconds).1 = Option.none := by
  have h := process_item_stage_failure
    ⟨Option.some [("x", PyVal.int 1)], Option.none, Option.none⟩
    (PyVal.dict [("csp_a_service_name", PyVal.str "s"),
      ("csp_b_service_name", PyVal.str "t")])
    "a" "b" [] 0 defaultMaxAgeSeconds rfl rfl rfl rfl rfl
  exact ⟨rfl, h.1⟩

/-- C9 (amended): if the pair's three cache keys all return truthy (non-falsy)
cached documents — `process_service_item` tests cached values with Python
truthiness (`if not tech_data:`), not with the cache's validity predicate —
then `process_service_item` invokes no analyst and no synthesizer (zero
inference calls), performs no cache writes (the store is returned unchanged),
and returns the result built from the cached documents. -/
theorem process_item_cache_replay (o : StageOracles) (item : PyVal)
    (cspa cspb : String) (fs : FS) (now maxAge : Nat) (td pd rd : PyVal)
    (hmatched : truthy (pyGet item "csp_b_service_name" PyVal.none) = true)
    (hget_t : CacheManager.get fs maxAge
      ("technical_" ++ servicePairId cspa cspb item) now = Option.some td)
    (htd : truthy td = true)
    (hget_p : CacheManager.get fs maxAge
      ("pricing_" ++ servicePairId cspa cspb item) now = Option.some pd)
    (hpd : truthy pd = true)
    (hget_r : CacheManager.get fs maxAge
      ("result_" ++ servicePairId cspa cspb item) now = Option.some rd)
    (hrd : truthy rd = true) :
    process_service_item o item cspa cspb fs now maxAge =
      (Option.some (item, rd), fs, 0, []) := by
  have hhot_t : truthy ((CacheManager.get fs maxAge
      ("technical_" ++ servicePairId cspa cspb item) now).getD PyVal.none) = true := by
    rw [hget_t]; exact htd
  have hhot_p : truthy ((CacheManager.get fs maxAge
      ("pricing_" ++ servicePairId cspa cspb item) now).getD PyVal.none) = true := by
    rw [hget_p]; exact hpd
  have hhot_r : truthy ((CacheManager.get fs maxAge
      ("result_" ++ servicePairId cspa cspb item) now).getD PyVal.none) = true := by
    rw [hget_r]; exact hrd
  have h1 := stageStep_hot fs maxAge ("technical_" ++ servicePairId cspa cspb item) o.tech
    (Option.some (servicePairId cspa cspb item))
    ("Technical analysis failed for " ++ servicePairId cspa cspb item) now hhot_t
  have h2 := stageStep_hot fs maxAge ("pricing_" ++ servicePairId cspa cspb item) o.price
    (Option.some (servicePairId cspa cspb item))
    ("Pricing analysis failed for " ++ servicePairId cspa cspb item) now hhot_p
  have h3 := stageStep_hot fs maxAge ("result_" ++ servicePairId cspa cspb item) o.synth
    Option.none
    ("Synthesis failed for " ++ servicePairId cspa cspb item) now hhot_r
  rw [hget_t] at h1
  rw [hget_p] at h2
  rw [hget_r] at h3
  unfold process_service_item
  simp [hmatched, h1, h2, h3]

theorem process_item_cache_replay_witness :
    process_service_item
      ⟨Option.none, Option.none, Option.none⟩
      (PyVal.dict [("csp_a_service_name", PyVal.str "s"),
        ("csp_b_service_name", PyVal.str "t")])
      "a" "b"
      [("technical_a_s_vs_b_t", ⟨FileContent.jsonDoc (PyVal.dict [("k", PyVal.int 1)]), 0⟩),
       ("pricing_a_s_vs_b_t", ⟨FileContent.jsonDoc (PyVal.dict [("k", PyVal.int 2)]), 0⟩),
       ("result_a_s_vs_b_t", ⟨FileContent.jsonDoc (PyVal.dict [("k", PyVal.int 3)]), 0⟩)]
      0 defaultMaxAgeSeconds =
      (Option.some
        (PyVal.dict [("csp_a_service_name", PyVal.str "s"),
          ("csp_b_service_name", PyVal.str "t")],
         PyVal.dict [("k", PyVal.int 3)]),
       [("technical_a_s_vs_b_t", ⟨FileContent.jsonDoc (PyVal.dict [("k", PyVal.int 1)]), 0⟩),
        ("pricing_a_s_vs_b_t", ⟨FileContent.jsonDoc (PyVal.dict [("k", PyVal.int 2)]), 0⟩),
        ("result_a_s_vs_b_t", ⟨FileContent.jsonDoc (PyVal.dict [("k", PyVal.int 3)]), 0⟩)],
       0, []) :=
  process_item_cache_replay
    ⟨Option.none, Option.none, Option.none⟩
    (PyVal.dict [("csp_a_service_name", PyVal.str "s"),
      ("csp_b_service_name", PyVal.str "t")])
    "a" "b"
    [("technical_a_s_vs_b_t", ⟨FileContent.jsonDoc (PyVal.dict [("k", PyVal.int 1)]), 0⟩),
     ("pricing_a_s_vs_b_t", ⟨FileContent.jsonDoc (PyVal.dict [("k", PyVal.int 2)]), 0⟩),
     ("result_a_s_vs_b_t", ⟨FileContent.jsonDoc (PyVal.dict [("k", PyVal.int 3)]), 0⟩)]
    0 defaultMaxAgeSeconds
    (PyVal.dict [("k", PyVal.int 1)]) (PyVal.dict [("k", PyVal.int 2)])
    (PyVal.dict [("k", PyVal.int 3)])
    rfl rfl rfl rfl rfl rfl rfl

/-- C9 (counterexample): a pair whose three cache keys all return *valid*
cached data — `PyVal.int 0` passes the cache's validity predicate, so
`CacheManager.get` returns it — still triggers three analyst/synthesizer
invocations and cache writes, because `process_service_item` tests the cached
value with Python truthiness (`if not tech_data:`) and `0` is falsy. This
refutes the claim as stated over all valid cached payloads. -/
theorem process_item_valid_cache_not_replay :
    (CacheManager.get
      [("technical_a_s_vs_b_t", ⟨FileContent.jsonDoc (PyVal.int 0), 0⟩),
       ("pricing_a_s_vs_b_t", ⟨FileContent.jsonDoc (PyVal.int 0), 0⟩),
       ("result_a_s_vs_b_t", ⟨FileContent.jsonDoc (PyVal.int 0), 0⟩)]
      defaultMaxAgeSeconds "technical_a_s_vs_b_t" 0 = Option.some (PyVal.int 0)) ∧
    (CacheManager.get
      [("technical_a_s_vs_b_t", ⟨FileContent.jsonDoc (PyVal.int 0), 0⟩),
       ("pricing_a_s_vs_b_t", ⟨FileContent.jsonDoc (PyVal.int 0), 0⟩),
       ("result_a_s_vs_b_t", ⟨FileContent.jsonDoc (PyVal.int 0), 0⟩)]
      defaultMaxAgeSeconds "pricing_a_s_vs_b_t" 0 = Option.some (PyVal.int 0)) ∧
    (CacheManager.get
      [("technical_a_s_vs_b_t", ⟨FileContent.jsonDoc (PyVal.int 0), 0⟩),
       ("pricing_a_s_vs_b_t", ⟨FileContent.jsonDoc (PyVal.int 0), 0⟩),
       ("result_a_s_vs_b_t", ⟨FileContent.jsonDoc (PyVal.int 0), 0⟩)]
      defaultMaxAgeSeconds "result_a_s_vs_b_t" 0 = Option.some (PyVal.int 0)) ∧
    isInvalidData (PyVal.int 0) = false ∧
    (process_service_item
      ⟨Option.some [("x", PyVal.int 1)], Option.some [("x", PyVal.int 1)],
       Option.some [("x", PyVal.int 1)]⟩
      (PyVal.dict [("csp_a_service_name", PyVal.str "s"),
        ("csp_b_service_name", PyVal.str "t")])
      "a" "b"
      [("technical_a_s_vs_b_t", ⟨FileContent.jsonDoc (PyVal.int 0), 0⟩),
       ("pricing_a_s_vs_b_t", ⟨FileContent.jsonDoc (PyVal.int 0), 0⟩),
       ("result_a_s_vs_b_t", ⟨FileContent.jsonDoc (PyVal.int 0), 0⟩)]
      0 defaultMaxAgeSeconds).2.2.1 = 3 := by
  refine ⟨rfl, rfl, rfl, rfl, rfl⟩

mutual
/-- Python structural equality on `PyVal` (dict keys in `synthesis_by_domain`
are compared by value). -/
def pyEq : PyVal → PyVal → Bool
  | PyVal.none, PyVal.none => true
  | PyVal.bool a, PyVal.bool b => a == b
  | PyVal.int a, PyVal.int b => a == b
  | PyVal.str a, PyVal.str b => a == b
  | PyVal.list a, PyVal.list b => pyEqList a b
  | PyVal.dict a, PyVal.dict b => pyEqPairs a b
  | PyVal.pyset a, PyVal.pyset b => pyEqList a b
  | _, _ => false

def pyEqList : List PyVal → List PyVal → Bool
  | [], [] => true
  | a :: arest, b :: brest => pyEq a b && pyEqList arest brest
  | _, _ => false

def pyEqPairs : List (String × PyVal) → List (String × PyVal) → Bool
  | [], [] => true
  | (k1, v1) :: arest, (k2, v2) :: brest => k1 == k2 && pyEq v1 v2 && pyEqPairs arest brest
  | _, _ => false
end

/-- Append `v` to `groups[d]`, creating the bucket in insertion order when
absent (`synthesis_by_domain[domain].append(...)`). -/
def addToGroup (groups : List (PyVal × List PyVal)) (d : PyVal) (v : PyVal) :
    List (PyVal × List PyVal) :=
  if groups.any (fun g => pyEq g.1 d) then
    groups.map (fun g => if pyEq g.1 d then (g.1, g.2 ++ [v]) else g)
  else groups ++ [(d, [v])]

/-- The grouping loop of main.py lines 179-186: bucket each successful pair's
synthesis document under `item["map"].get("domain", "Uncategorized")`
(`item["result"]["synthesis"]` is modelled as a lookup; synthesis documents
built by `Synthesizer.synthesize` always carry the field). -/
def groupByDomain (results : List (PyVal × PyVal)) : List (PyVal × List PyVal) :=
  results.foldl (fun acc mr =>
    addToGroup acc (pyGet mr.1 "domain" (PyVal.str "Uncategorized"))
      (pyGet mr.2 "synthesis" PyVal.none)) []

/-- `Synthesizer.summarize_by_domain` (synthesizer.py lines 43-82): `None` on
an empty result list, otherwise the outcome of the external call (`None` when
the call raised — the `except` returns `None`). -/
def summarize_by_domain (oracle : Option PyVal) (synthesis_results : List PyVal) :
    Option PyVal :=
  if synthesis_results.isEmpty then Option.none else oracle

/-- One domain's step of the spec-modelled `generate_management_summary`
caching loop: consult `management_summary_{domain}` cache-first, invoking
`summarize_by_domain` on a miss and persisting a successful summary.
Accumulates (domain summaries, store, audit list of keys requested). -/
def gmsStep (now maxAge : Nat) (domainOracle : PyVal → Option PyVal)
    (acc : List (String × PyVal) × FS × List String) (g : PyVal × List PyVal) :
    List (String × PyVal) × FS × List String :=
  let key := "management_summary_" ++ pyStrD g.1 ""
  let cached := (CacheManager.get acc.2.1 maxAge key now).getD PyVal.none
  if truthy cached then
    (acc.1 ++ [(pyStrD g.1 "", cached)], acc.2.1, acc.2.2 ++ [key])
  else
    match summarize_by_domain (domainOracle g.1) g.2 with
    | Option.some s =>
      (acc.1 ++ [(pyStrD g.1 "", s)], (CacheManager.set acc.2.1 key s now).1,
        acc.2.2 ++ [key])
    | Option.none => (acc.1, acc.2.1, acc.2.2 ++ [key])

/-- Modelled from the spec: `Synthesizer.generate_management_summary` is
invoked by `main` (main.py line 192) and exercised by
`tests/test_pipeline.py`, but its definition is absent from the source tree.
Per spec §4.4, for each domain group it requests one domain-level summary
under that domain's own `management_summary_`-prefixed cache key (through
`summarize_by_domain`, which is in the source) before producing the final
consolidated summary, whose `domain_summaries` and `overarching_summary`
fields the test asserts. Returns the consolidated summary (`None` when the
final consolidation call fails), the updated store, and the audit list of
per-domain cache keys requested. -/
def generate_management_summary (fs : FS) (now maxAge : Nat)
    (domainOracle : PyVal → Option PyVal) (overarchingOracle : Option PyVal)
    (groups : List (PyVal × List PyVal)) : Option PyVal × FS × List String :=
  let folded := groups.foldl (gmsStep now maxAge domainOracle) ([], fs, [])
  match overarchingOracle with
  | Option.some ov =>
    (Option.some (PyVal.dict [("domain_summaries", PyVal.dict folded.1),
      ("overarching_summary", ov)]), folded.2.1, folded.2.2)
  | Option.none => (Option.none, folded.2.1, folded.2.2)

/-- Phase 5 of `main` (main.py lines 177-200): group the successful pairs by
domain, then produce the management summary cache-first under the
consolidated `management_summary_{csp_a}_{csp_b}{suffix}` key; a falsy
summary falls back to `{}` so rendering always proceeds. Returns the summary,
the store, and the audit list of summary cache keys consulted (consolidated
key first). -/
def phase5 (fs : FS) (now maxAge : Nat) (cspa cspb : String) (testMode : Bool)
    (domainOracle : PyVal → Option PyVal) (overarchingOracle : Option PyVal)
    (finalResults : List (PyVal × PyVal)) : PyVal × FS × List String :=
  if truthy ((CacheManager.get fs maxAge
      ("management_summary_" ++ cspa ++ "_" ++ cspb ++
        (if testMode then "_test" else "")) now).getD PyVal.none) then
    (((CacheManager.get fs maxAge
        ("management_summary_" ++ cspa ++ "_" ++ cspb ++
          (if testMode then "_test" else "")) now).getD PyVal.none), fs,
      [("management_summary_" ++ cspa ++ "_" ++ cspb ++
        (if testMode then "_test" else ""))])
  else
    let gms := generate_management_summary fs now maxAge domainOracle overarchingOracle
      (groupByDomain finalResults)
    let ms := gms.1.getD PyVal.none
    if truthy ms then
      (ms, (CacheManager.set gms.2.1
        ("management_summary_" ++ cspa ++ "_" ++ cspb ++
          (if testMode then "_test" else "")) ms now).1,
        ("management_summary_" ++ cspa ++ "_" ++ cspb ++
          (if testMode then "_test" else "")) :: gms.2.2)
    else
      (PyVal.dict [], gms.2.1,
        ("management_summary_" ++ cspa ++ "_" ++ cspb ++
          (if testMode then "_test" else "")) :: gms.2.2)

/-- `service_list_x and service_list_x.get("services")` truthiness
(main.py lines 147-148). -/
def listResolved (v : PyVal) : Bool :=
  truthy v && truthy (pyGet v "services" PyVal.none)

/-- One service-list step of Phase 1 (main.py lines 108-135): consult the
cache, discard a cached truthy document whose "services" field is falsy,
fetch on miss (`fetched` is what `mapper.get_service_list` would return), and
cache the fetched document only when its "services" field is truthy. Returns
the document the variable holds afterwards and the store. -/
def serviceListStep (fs : FS) (now maxAge : Nat) (key : String) (fetched : PyVal) :
    PyVal × FS :=
  let cached := (CacheManager.get fs maxAge key now).getD PyVal.none
  let cached2 := if truthy cached && !truthy (pyGet cached "services" PyVal.none)
    then PyVal.none else cached
  if truthy cached2 = false then
    if truthy fetched && truthy (pyGet fetched "services" PyVal.none) then
      (fetched, (CacheManager.set fs key fetched now).1)
    else (fetched, fs)
  else (cached2, fs)

/-- The cached service map after the emptiness double-check of main.py
lines 138-142: usable iff present, truthy, and with truthy "items". -/
def cachedMapUsable (fs : FS) (now maxAge : Nat) (key : String) : Bool :=
  truthy ((CacheManager.get fs maxAge key now).getD PyVal.none) &&
    truthy (pyGet ((CacheManager.get fs maxAge key now).getD PyVal.none)
      "items" PyVal.none)

/-- The inputs of Phase 1 that come from outside: the two
`get_service_list` outcomes, the prompt-config check, and the per-chunk
batch-mapping outcomes. -/
structure DiscoveryOracles where
  listA : PyVal
  listB : PyVal
  promptOk : Bool
  batch : Nat → BatchCallResult

/-- Phase 1 of `main` (main.py lines 105-160): resolve both service lists
cache-first, then the service map cache-first (with the emptiness
double-check); without a usable cached map, `sys.exit(1)` when either list
failed to resolve, otherwise run the batch mapping and `sys.exit(1)` again
when it yields no items (`Option.none` models the non-zero exit). On success
returns the item list entering Phase 2 and the store. -/
def phase1 (fs : FS) (now maxAge : Nat) (cspa cspb : String) (o : DiscoveryOracles) :
    Option (List PyVal) × FS :=
  let ra := serviceListStep fs now maxAge ("service_list_" ++ cspa) o.listA
  let rb := serviceListStep ra.2 now maxAge ("service_list_" ++ cspb) o.listB
  if cachedMapUsable rb.2 now maxAge ("service_map_" ++ cspa ++ "_" ++ cspb) then
    (Option.some (pyList (pyGet ((CacheManager.get rb.2 maxAge
        ("service_map_" ++ cspa ++ "_" ++ cspb) now).getD PyVal.none)
      "items" (PyVal.list []))), rb.2)
  else
    if listResolved ra.1 && listResolved rb.1 then
      let mapped := (map_services o.promptOk o.batch
        (pyList (pyGet ra.1 "services" (PyVal.list [])))).1
      let fs3 := if truthy (PyVal.dict [("items", PyVal.list mapped)]) &&
          truthy (pyGet (PyVal.dict [("items", PyVal.list mapped)]) "items" PyVal.none)
        then (CacheManager.set rb.2 ("service_map_" ++ cspa ++ "_" ++ cspb)
          (PyVal.dict [("items", PyVal.list mapped)]) now).1
        else rb.2
      if truthy (PyVal.dict [("items", PyVal.list mapped)]) = false ||
          truthy (pyGet (PyVal.dict [("items", PyVal.list mapped)]) "items" PyVal.none)
            = false then
        (Option.none, fs3)
      else (Option.some mapped, fs3)
    else (Option.none, rb.2)

/-- The environment-derived configuration (config.py lines 10-27): in
non-test mode the three required variables must all be present, else the
`Config` class body raises `ValueError` (caught by the `__main__` wrapper of
main.py, which exits non-zero). -/
structure Env where
  testMode : Bool
  gcpProjectId : Option String
  bucketName : Option String
  aiLocation : Option String

def configValid (e : Env) : Bool :=
  e.testMode || (e.gcpProjectId.isSome && e.bucketName.isSome && e.aiLocation.isSome)

/-- The per-item fan-out of main.py lines 169-171 (`asyncio.gather` over
`process_service_item` tasks, modelled as its deterministic sequential
linearization of the shared cache; task results keep item order). -/
def runItems (stages : Nat → StageOracles) (cspa cspb : String) (now maxAge : Nat) :
    List PyVal → Nat → FS → List (Option (PyVal × PyVal)) × FS
  | [], _, fs => ([], fs)
  | item :: rest, i, fs =>
    let r := process_service_item (stages i) item cspa cspb fs now maxAge
    let rs := runItems stages cspa cspb now maxAge rest (i + 1) r.2.1
    (r.1 :: rs.1, rs.2)

/-- The data `main` hands the renderer in Phase 6
(`visualizer.generate_dashboard(csp_a, csp_b, final_results, items,
management_summary, output_html)`), plus the audit list of summary cache keys
consulted. -/
structure RunReport where
  finalResults : List (PyVal × PyVal)
  allItems : List PyVal
  managementSummary : PyVal
  summaryCacheKeys : List String

/-- All external-call outcomes feeding one run of `main`. -/
structure MainOracles where
  discovery : DiscoveryOracles
  stages : Nat → StageOracles
  domainOracle : PyVal → Option PyVal
  overarchingOracle : Option PyVal

/-- `main` (main.py lines 79-215): exit non-zero on configuration failure
(the `ValueError` caught by the `__main__` wrapper) or on the Phase-1
`sys.exit(1)` calls; otherwise Phase 2 processes the (test-mode truncated)
item list, Phase 5 produces the management summary, and Phase 6 rendering is
always reached, with the returned report carrying its inputs. -/
def mainModel (env : Env) (testFlag clearCache : Bool) (cspa cspb : String)
    (fs0 : FS) (now maxAge : Nat) (o : MainOracles) : Except Nat RunReport :=
  if configValid env = false then Except.error 1
  else
    match phase1 (if clearCache then ([] : FS) else fs0) now maxAge cspa cspb
        o.discovery with
    | (Option.none, _) => Except.error 1
    | (Option.some items0, fs2) =>
      let items := if testFlag || env.testMode then items0.take 4 else items0
      let pr := runItems o.stages cspa cspb now maxAge items 0 fs2
      let finalResults := finalResultsOf pr.1
      let p5 := phase5 pr.2 now maxAge cspa cspb (testFlag || env.testMode)
        o.domainOracle o.overarchingOracle finalResults
      Except.ok ⟨finalResults, items, p5.1, p5.2.2⟩

theorem gmsStep_keys (now maxAge : Nat) (domainOracle : PyVal → Option PyVal)
    (acc : List (String × PyVal) × FS × List String) (g : PyVal × List PyVal) :
    (gmsStep now maxAge domainOracle acc g).2.2 =
      acc.2.2 ++ ["management_summary_" ++ pyStrD g.1 ""] := by
  unfold gmsStep
  by_cases h : truthy ((CacheManager.get acc.2.1 maxAge
      ("management_summary_" ++ pyStrD g.1 "") now).getD PyVal.none) = true
  · simp [h]
  · have h' : truthy ((CacheManager.get acc.2.1 maxAge
        ("management_summary_" ++ pyStrD g.1 "") now).getD PyVal.none) = false := by
      cases hb : truthy ((CacheManager.get acc.2.1 maxAge
        ("management_summary_" ++ pyStrD g.1 "") now).getD PyVal.none)
      · rfl
      · exact absurd hb h
    cases hsd : summarize_by_domain (domainOracle g.1) g.2 <;> simp [h', hsd]

theorem gms_fold_keys (now maxAge : Nat) (domainOracle : PyVal → Option PyVal)
    (groups : List (PyVal × List PyVal)) :
    ∀ acc : List (String × PyVal) × FS × List String,
      (groups.foldl (gmsStep now maxAge domainOracle) acc).2.2 =
        acc.2.2 ++ groups.map (fun g => "management_summary_" ++ pyStrD g.1 "") := by
  induction groups with
  | nil => intro acc; simp
  | cons g gs ih =>
    intro acc
    rw [List.foldl_cons, ih, gmsStep_keys]
    simp

theorem generate_management_summary_keys (fs : FS) (now maxAge : Nat)
    (domainOracle : PyVal → Option PyVal) (overarchingOracle : Option PyVal)
    (groups : List (PyVal × List PyVal)) :
    (generate_management_summary fs now maxAge domainOracle overarchingOracle
      groups).2.2 =
      groups.map (fun g => "management_summary_" ++ pyStrD g.1 "") := by
  unfold generate_management_summary
  cases overarchingOracle <;> simp [gms_fold_keys]

/-- C4: after the per-pair fan-in, the orchestrator groups the successful
pairs by domain and — when the consolidated summary key misses — requests
exactly one domain-level summary per domain group, each under its own
`management_summary_`-prefixed cache key (after the consolidated
`management_summary_{csp_a}_{csp_b}{suffix}` key itself); and whenever the
configuration is valid and Phase 1 succeeds, `main` always reaches report
rendering (it returns a report, never an error, whatever the per-pair and
summary outcomes were). -/
theorem main_summary_and_render (env : Env) (testFlag clearCache : Bool)
    (cspa cspb : String) (fs0 : FS) (now maxAge : Nat) (o : MainOracles)
    (fsP : FS) (testMode : Bool) (dO : PyVal → Option PyVal) (oO : Option PyVal)
    (finRes : List (PyVal × PyVal)) :
    (configValid env = true →
      ∀ (items0 : List PyVal) (fs2 : FS),
        phase1 (if clearCache then ([] : FS) else fs0) now maxAge cspa cspb
          o.discovery = (Option.some items0, fs2) →
        ∃ r : RunReport,
          mainModel env testFlag clearCache cspa cspb fs0 now maxAge o =
            Except.ok r) ∧
    (truthy ((CacheManager.get fsP maxAge
        ("management_summary_" ++ cspa ++ "_" ++ cspb ++
          (if testMode then "_test" else "")) now).getD PyVal.none) = false →
      (phase5 fsP now maxAge cspa cspb testMode dO oO finRes).2.2 =
        ("management_summary_" ++ cspa ++ "_" ++ cspb ++
          (if testMode then "_test" else "")) ::
          (groupByDomain finRes).map
            (fun g => "management_summary_" ++ pyStrD g.1 "") ∧
      ∀ k ∈ (phase5 fsP now maxAge cspa cspb testMode dO oO finRes).2.2,
        ∃ rest : String, k = "management_summary_" ++ rest) := by
  constructor
  · intro hcfg items0 fs2 hph
    unfold mainModel
    rw [if_neg (by simp [hcfg]), hph]
    exact ⟨_, rfl⟩
  · intro hmiss
    have hkeys : (phase5 fsP now maxAge cspa cspb testMode dO oO finRes).2.2 =
        ("management_summary_" ++ cspa ++ "_" ++ cspb ++
          (if testMode then "_test" else "")) ::
          (groupByDomain finRes).map
            (fun g => "management_summary_" ++ pyStrD g.1 "") := by
      unfold phase5
      rcases Bool.eq_false_or_eq_true (truthy ((generate_management_summary fsP now maxAge
          dO oO (groupByDomain finRes)).1.getD PyVal.none)) with hms | hms <;>
        simp [hmiss, hms, generate_management_summary_keys]
    refine ⟨hkeys, ?_⟩
    intro k hk
    rw [hkeys] at hk
    rcases List.mem_cons.mp hk with h | h
    · refine ⟨cspa ++ ("_" ++ (cspb ++ (if testMode then "_test" else ""))), ?_⟩
      rw [h]
      simp [String.append_assoc]
    · obtain ⟨g, hg, hgk⟩ := List.mem_map.mp h
      exact ⟨pyStrD g.1 "", hgk.symm⟩

theorem main_summary_and_render_witness :
    (∃ r : RunReport,
      mainModel ⟨true, Option.none, Option.none, Option.none⟩ false false "a" "b"
        [("service_map_a_b",
          ⟨FileContent.jsonDoc (PyVal.dict [("items", PyVal.list [PyVal.dict
            [("domain", PyVal.str "Compute"),
             ("csp_a_service_name", PyVal.str "s"),
             ("csp_b_service_name", PyVal.str "t")]])]), 0⟩)]
        0 defaultMaxAgeSeconds
        ⟨⟨PyVal.none, PyVal.none, true, fun _ => BatchCallResult.failure⟩,
         fun _ => ⟨Option.none, Option.none, Option.none⟩,
         fun _ => Option.none, Option.none⟩ = Except.ok r) ∧
    (phase5 [] 0 defaultMaxAgeSeconds "a" "b" false (fun _ => Option.none)
        Option.none []).2.2 =
      ("management_summary_" ++ "a" ++ "_" ++ "b" ++ (if false then "_test" else "")) ::
        (groupByDomain []).map (fun g => "management_summary_" ++ pyStrD g.1 "") := by
  constructor
  · exact (main_summary_and_render ⟨true, Option.none, Option.none, Option.none⟩
      false false "a" "b"
      [("service_map_a_b",
        ⟨FileContent.jsonDoc (PyVal.dict [("items", PyVal.list [PyVal.dict
          [("domain", PyVal.str "Compute"),
           ("csp_a_service_name", PyVal.str "s"),
           ("csp_b_service_name", PyVal.str "t")]])]), 0⟩)]
      0 defaultMaxAgeSeconds
      ⟨⟨PyVal.none, PyVal.none, true, fun _ => BatchCallResult.failure⟩,
       fun _ => ⟨Option.none, Option.none, Option.none⟩,
       fun _ => Option.none, Option.none⟩
      [] false (fun _ => Option.none) Option.none []).1 rfl
      [PyVal.dict [("domain", PyVal.str "Compute"),
        ("csp_a_service_name", PyVal.str "s"),
        ("csp_b_service_name", PyVal.str "t")]] _ rfl
  · exact ((main_summary_and_render ⟨true, Option.none, Option.none, Option.none⟩
      false false "a" "b" [] 0 defaultMaxAgeSeconds
      ⟨⟨PyVal.none, PyVal.none, true, fun _ => BatchCallResult.failure⟩,
       fun _ => ⟨Option.none, Option.none, Option.none⟩,
       fun _ => Option.none, Option.none⟩
      [] false (fun _ => Option.none) Option.none []).2 rfl).1

theorem truthy_items_dict (l : List PyVal) :
    truthy (PyVal.dict [("items", PyVal.list l)]) = true := rfl

theorem pyGet_items_dict (l : List PyVal) :
    pyGet (PyVal.dict [("items", PyVal.list l)]) "items" PyVal.none = PyVal.list l := rfl

theorem truthy_list_eval (l : List PyVal) : truthy (PyVal.list l) = !l.isEmpty := rfl

/-- C5 (amended): the run stops with a non-zero exit before producing output
exactly when configuration validation fails, or when — with no usable cached
service map — at least one provider's service list fails to resolve or the
batch mapping yields no items. In particular (contrary to the claim as
stated) a single provider's list failing while the other resolves does abort
the run when no cached map exists. -/
theorem main_stop_conditions (env : Env) (testFlag clearCache : Bool)
    (cspa cspb : String) (fs0 : FS) (now maxAge : Nat) (o : MainOracles) :
    mainModel env testFlag clearCache cspa cspb fs0 now maxAge o = Except.error 1 ↔
      (configValid env = false ∨
        (cachedMapUsable (serviceListStep (serviceListStep
            (if clearCache then ([] : FS) else fs0) now maxAge
            ("service_list_" ++ cspa) o.discovery.listA).2 now maxAge
            ("service_list_" ++ cspb) o.discovery.listB).2 now maxAge
            ("service_map_" ++ cspa ++ "_" ++ cspb) = false ∧
         (listResolved (serviceListStep (if clearCache then ([] : FS) else fs0)
            now maxAge ("service_list_" ++ cspa) o.discovery.listA).1 = false ∨
          listResolved (serviceListStep (serviceListStep
            (if clearCache then ([] : FS) else fs0) now maxAge
            ("service_list_" ++ cspa) o.discovery.listA).2 now maxAge
            ("service_list_" ++ cspb) o.discovery.listB).1 = false ∨
          (map_services o.discovery.promptOk o.discovery.batch
            (pyList (pyGet (serviceListStep (if clearCache then ([] : FS) else fs0)
              now maxAge ("service_list_" ++ cspa) o.discovery.listA).1 "services"
              (PyVal.list [])))).1 = []))) := by
  by_cases hcfg : configValid env = false
  · unfold mainModel
    simp [hcfg]
  · have hcfg' : configValid env = true := by
      cases h : configValid env
      · exact absurd h hcfg
      · rfl
    unfold mainModel
    rw [if_neg hcfg]
    unfold phase1
    rcases Bool.eq_false_or_eq_true (cachedMapUsable (serviceListStep (serviceListStep
        (if clearCache then ([] : FS) else fs0) now maxAge
        ("service_list_" ++ cspa) o.discovery.listA).2 now maxAge
        ("service_list_" ++ cspb) o.discovery.listB).2 now maxAge
        ("service_map_" ++ cspa ++ "_" ++ cspb)) with hcm | hcm
    · simp [hcm, hcfg']
    · rcases Bool.eq_false_or_eq_true (listResolved (serviceListStep
          (if clearCache then ([] : FS) else fs0) now maxAge
          ("service_list_" ++ cspa) o.discovery.listA).1) with hla | hla
      · rcases Bool.eq_false_or_eq_true (listResolved (serviceListStep (serviceListStep
            (if clearCache then ([] : FS) else fs0) now maxAge
            ("service_list_" ++ cspa) o.discovery.listA).2 now maxAge
            ("service_list_" ++ cspb) o.discovery.listB).1) with hlb | hlb
        · rcases List.eq_nil_or_concat ((map_services o.discovery.promptOk
              o.discovery.batch (pyList (pyGet (serviceListStep
              (if clearCache then ([] : FS) else fs0) now maxAge
              ("service_list_" ++ cspa) o.discovery.listA).1 "services"
              (PyVal.list [])))).1) with hmp | hmp
          · simp [hcm, hla, hlb, hcfg', hmp, truthy_items_dict, pyGet_items_dict,
              truthy_list_eval]
          · obtain ⟨l, x, hmp⟩ := hmp
            have hne : (map_services o.discovery.promptOk
                o.discovery.batch (pyList (pyGet (serviceListStep
                (if clearCache then ([] : FS) else fs0) now maxAge
                ("service_list_" ++ cspa) o.discovery.listA).1 "services"
                (PyVal.list [])))).1 ≠ [] := by rw [hmp]; simp
            have hnonempty : ((map_services o.discovery.promptOk
                o.discovery.batch (pyList (pyGet (serviceListStep
                (if clearCache then ([] : FS) else fs0) now maxAge
                ("service_list_" ++ cspa) o.discovery.listA).1 "services"
                (PyVal.list [])))).1).isEmpty = false := by
              rw [hmp]; simp
            simp [hcm, hla, hlb, hcfg', hne, truthy_items_dict, pyGet_items_dict,
              truthy_list_eval, hnonempty]
        · simp [hcm, hla, hlb, hcfg']
      · simp [hcm, hla, hcfg']

/-- C5 (counterexample): with valid configuration, an empty cache (no cached
service map) and provider A's list resolving while provider B's fails
(`{"services": []}`, the value `get_service_list` returns on failure), the
run exits non-zero — refuting the claim that only a failure of *both*
providers' lists aborts the run. -/
theorem main_single_list_failure_aborts :
    configValid ⟨true, Option.none, Option.none, Option.none⟩ = true ∧
    listResolved (PyVal.dict [("services",
      PyVal.list [PyVal.dict [("service_name", PyVal.str "x")]])]) = true ∧
    listResolved (PyVal.dict [("services", PyVal.list [])]) = false ∧
    mainModel ⟨true, Option.none, Option.none, Option.none⟩ false false "a" "b"
      [] 0 defaultMaxAgeSeconds
      ⟨⟨PyVal.dict [("services",
          PyVal.list [PyVal.dict [("service_name", PyVal.str "x")]])],
        PyVal.dict [("services", PyVal.list [])], true,
        fun _ => BatchCallResult.failure⟩,
       fun _ => ⟨Option.none, Option.none, Option.none⟩,
       fun _ => Option.none, Option.none⟩ = Except.error 1 :=
  ⟨rfl, rfl, rfl, rfl⟩
